import Mathlib

/-!
Verification of the hybrid movie-recommender notebook
(`src/machine_learning/recommendation_system_example__movie_recommender.ipynb`).

Shallow embedding notes.

The notebook fits a PySpark feature pipeline (StringIndexer + OneHotEncoder for
userId and movieId, HashingTF + IDF for the genre list), an ALS collaborative
model and a RandomForest content model, then serves predictions over Flask.
The fitted third-party models are external collaborators: we embed them as
abstract score functions inside a `Models` record, while the orchestration
logic written in the notebook itself (`hybrid_predict`, the `/recommend`
handler with its `zip` pairing and Python stable `sorted(..., reverse=True)`,
the `/shutdown` handler and the `while server_active: server.handle_request()`
loop) is translated faithfully.

Failure modelling: PySpark's StringIndexer is fit with the default
`handleInvalid="error"`, so a userId or movieId absent from the fitted label
list raises at prediction time; likewise ALS with `coldStartStrategy="drop"`
followed by `collect()[0][0]` raises IndexError when the row is dropped.
Either way the Python exception escapes the Flask handler, which Flask turns
into a 500 server-error response. We model a raising prediction as `Option`
`none`, and the resulting response as `Response.serverError` (status 500).
Scores (Python floats) are modelled as exact rationals `ℚ`.
-/

/-- Fitted state shared by every request: the StringIndexer label lists for
userId and movieId (index = position in the fitted label list), the fitted
ALS collaborative scorer on (user_index, movie_index), and the fitted
random-forest content scorer on (movie_index, genres_list).  The two scorer
fields abstract the third-party fitted models; everything the notebook's own
code does around them is embedded concretely. -/
structure Models where
  userLabels : List Int
  movieLabels : List Int
  cfScore : Nat → Nat → ℚ
  cbScore : Nat → List String → ℚ

/-- StringIndexer transform with the default handleInvalid="error": the index
of the label in the fitted label list, `none` (= raised exception) when the
label was unseen during fitting. -/
def indexerTransform (labels : List Int) (x : Int) : Option Nat :=
  labels.findIdx? (fun l => l == x)

/-- Intermediate result of `hybrid_predict`: the pair
(cf_score, cb_score) collected from the two model transforms, `none` when the
pipeline transform raises on an unseen userId or movieId.  The content score
is computed from the movie one-hot vector and the hashed-IDF genre features
only, i.e. from (movie_index, genres_list); the user plays no role in it. -/
def hybridParts (m : Models) (userId : Int) (movieId : Int)
    (genres_list : List String) : Option (ℚ × ℚ) := do
  let user_index ← indexerTransform m.userLabels userId
  let movie_index ← indexerTransform m.movieLabels movieId
  pure (m.cfScore user_index movie_index, m.cbScore movie_index genres_list)

/-- Embedding of `hybrid_predict(userId, movieId, genres_list)`: transform the
one-row input through the fitted pipeline, collect the collaborative and
content predictions, and return `0.7 * cf_score + 0.3 * cb_score`. -/
def hybrid_predict (m : Models) (userId : Int) (movieId : Int)
    (genres_list : List String) : Option ℚ :=
  (hybridParts m userId movieId genres_list).map
    (fun p => (7 : ℚ) / 10 * p.1 + (3 : ℚ) / 10 * p.2)

/-- One entry of the `/recommend` response: `{'movieId': ..., 'score': ...}`. -/
structure RecEntry where
  movieId : Int
  score : ℚ
deriving DecidableEq

/-- Insertion step of Python's stable sort by score descending: the new
element `x` (earlier in the input than everything already placed) goes in
front of the first element whose score does not exceed it. -/
def insertDesc (x : RecEntry) : List RecEntry → List RecEntry
  | [] => [x]
  | y :: ys => if y.score ≤ x.score then x :: y :: ys else y :: insertDesc x ys

/-- Embedding of `sorted(recommendations, key=lambda x: x['score'],
reverse=True)`: a stable sort by score descending (CPython's sort is stable,
and `reverse=True` preserves the input order of equal keys). -/
def sortDesc : List RecEntry → List RecEntry
  | [] => []
  | x :: xs => insertDesc x (sortDesc xs)

/-- The accumulation loop of the POST `/recommend` handler:
`for movieId, genres_list in zip(movieIds, genres_lists): score =
hybrid_predict(...); recommendations.append(...)`.  The pair list is the
result of `zip`; a raising `hybrid_predict` call aborts the whole request
(`none`). -/
def buildRecs (m : Models) (userId : Int) :
    List (Int × List String) → Option (List RecEntry)
  | [] => some []
  | (movieId, genres_list) :: rest => do
    let score ← hybrid_predict m userId movieId genres_list
    let tail ← buildRecs m userId rest
    pure ({ movieId := movieId, score := score } :: tail)

/-- JSON body of a POST `/recommend` request.  Each field is `Option` because
the handler reads `request.json['userId']` etc. with no existence check: a
missing key (`none`) raises KeyError inside the handler. -/
structure RecommendJson where
  userId : Option Int
  movieIds : Option (List Int)
  genres_lists : Option (List (List String))
deriving DecidableEq

/-- HTTP responses the notebook's handlers can produce.  `htmlOk` is a 200
HTML page, `jsonList` the 200 JSON array from `jsonify(sorted(...))`,
`jsonStatus` the 200 JSON object from `jsonify({"status": ...})`, and
`serverError` the 500 page Flask substitutes when an exception escapes a
handler. -/
inductive Response where
  | htmlOk (body : String)
  | jsonList (entries : List RecEntry)
  | jsonStatus (status : String)
  | serverError
deriving DecidableEq

/-- HTTP status code of each response form: Flask returns 200 for a plain
string or `jsonify` result and 500 for an uncaught exception. -/
def Response.statusCode : Response → Nat
  | .htmlOk _ => 200
  | .jsonList _ => 200
  | .jsonStatus _ => 200
  | .serverError => 500

/-- Embedding of the POST branch of the `/recommend` handler: read the three
JSON fields (KeyError = 500 when one is missing), score each
`zip(movieIds, genres_lists)` pair, and return the stable descending sort as
a JSON array; an exception inside `hybrid_predict` also yields the 500
page. -/
def recommendPost (m : Models) (j : RecommendJson) : Response :=
  match j.userId, j.movieIds, j.genres_lists with
  | some userId, some movieIds, some genres_lists =>
    match buildRecs m userId (movieIds.zip genres_lists) with
    | some recommendations => Response.jsonList (sortDesc recommendations)
    | none => Response.serverError
  | _, _, _ => Response.serverError

/-- Mutable server state: the module-level `server_active` flag that the
serving loop polls and the `/shutdown` handler clears. -/
structure ServerState where
  server_active : Bool
deriving DecidableEq

/-- Incoming HTTP requests the notebook's routes accept. -/
inductive Request where
  | getHome
  | getRecommend
  | postRecommend (j : RecommendJson)
  | postShutdown
deriving DecidableEq

/-- Embedding of the `/shutdown` handler: set `server_active = False` and
return `jsonify({"status": "Server shutting down..."})`. -/
def shutdown (s : ServerState) : ServerState × Response :=
  ({ s with server_active := false },
   Response.jsonStatus ("Server shutting down..."))

/-- Dispatch of one request to the notebook's route handlers.  Only
`/shutdown` touches the shared state; the other handlers read it at most. -/
def handleRequest (m : Models) (s : ServerState) : Request → ServerState × Response
  | .getHome =>
    (s, Response.htmlOk
      ("<h1>Movie Recommendation Service</h1><p>Use /recommend endpoint for recommendations.</p>"))
  | .getRecommend =>
    (s, Response.htmlOk
      ("<h1>This endpoint is for recommending movies. Please use POST to submit data.</h1>"))
  | .postRecommend j => (s, recommendPost m j)
  | .postShutdown => shutdown s

/-- Embedding of the serving loop of `run_flask`:
`while server_active: server.handle_request()`.  The flag is read between
requests only; each handled request runs to completion and its response is
emitted before the flag is consulted again.  The argument list is the stream
of requests arriving at the socket; requests left after the loop exits are
never accepted and get no response. -/
def run_flask (m : Models) : ServerState → List Request → List Response
  | _, [] => []
  | s, r :: rs =>
    if s.server_active then
      (handleRequest m s r).2 :: run_flask m (handleRequest m s r).1 rs
    else []

/-- Process-global environment of the notebook at serving time: the fitted
models (read-only after fitting) and the server flag.  `hybrid_predict`
assigns no global, so its call leaves the environment unchanged. -/
structure GlobalEnv where
  models : Models
  server : ServerState

/-- A call to `hybrid_predict` as a state transition on the global
environment: the body only reads the fitted models, so the environment
component is returned untouched. -/
def hybridPredictCall (env : GlobalEnv) (userId : Int) (movieId : Int)
    (genres_list : List String) : GlobalEnv × Option ℚ :=
  (env, hybrid_predict env.models userId movieId genres_list)

/-- Concrete fitted state used by witnesses and counterexamples: two known
users, two known movies, both scorers constantly 10 (so every defined hybrid
score is 0.7 * 10 + 0.3 * 10 = 10). -/
def cm : Models where
  userLabels := [1, 2]
  movieLabels := [1, 2]
  cfScore := fun _ _ => 10
  cbScore := fun _ _ => 10

/-- The hybrid score every defined query gets under `cm`, written exactly as
`hybrid_predict` computes it so concrete evaluations are definitional. -/
def w10 : ℚ := (7 : ℚ) / 10 * 10 + (3 : ℚ) / 10 * 10

/-! Helper lemmas about the stable descending sort. -/

theorem insertDesc_perm (x : RecEntry) (l : List RecEntry) :
    List.Perm (insertDesc x l) (x :: l) := by
  induction l with
  | nil => exact List.Perm.refl _
  | cons y ys ih =>
    rw [insertDesc]
    by_cases h : y.score ≤ x.score
    · rw [if_pos h]
    · rw [if_neg h]
      exact (List.Perm.cons y ih).trans (List.Perm.swap x y ys)

theorem sortDesc_perm (l : List RecEntry) : List.Perm (sortDesc l) l := by
  induction l with
  | nil => exact List.Perm.refl _
  | cons x xs ih =>
    exact (insertDesc_perm x (sortDesc xs)).trans (List.Perm.cons x ih)

theorem insertDesc_pairwise (x : RecEntry) (l : List RecEntry)
    (h : l.Pairwise (fun a b => b.score ≤ a.score)) :
    (insertDesc x l).Pairwise (fun a b => b.score ≤ a.score) := by
  induction l with
  | nil => simp [insertDesc]
  | cons y ys ih =>
    rw [insertDesc]
    by_cases hxy : y.score ≤ x.score
    · rw [if_pos hxy]
      refine List.Pairwise.cons ?_ h
      intro z hz
      rcases List.mem_cons.1 hz with rfl | hz'
      · exact hxy
      · exact le_trans (List.rel_of_pairwise_cons h hz') hxy
    · rw [if_neg hxy]
      refine List.Pairwise.cons ?_ (ih (List.Pairwise.of_cons h))
      intro z hz
      rcases List.mem_cons.1 ((insertDesc_perm x ys).mem_iff.1 hz) with rfl | hz'
      · exact le_of_lt (lt_of_not_le hxy)
      · exact List.rel_of_pairwise_cons h hz'

theorem sortDesc_pairwise (l : List RecEntry) :
    (sortDesc l).Pairwise (fun a b => b.score ≤ a.score) := by
  induction l with
  | nil => simp [sortDesc]
  | cons x xs ih => exact insertDesc_pairwise x (sortDesc xs) ih

theorem insertDesc_filter (q : ℚ) (x : RecEntry) (l : List RecEntry) :
    (insertDesc x l).filter (fun e => e.score == q)
      = (x :: l).filter (fun e => e.score == q) := by
  induction l with
  | nil => rfl
  | cons y ys ih =>
    rw [insertDesc]
    by_cases hxy : y.score ≤ x.score
    · rw [if_pos hxy]
    · rw [if_neg hxy]
      have hkey : ¬((x.score == q) = true ∧ (y.score == q) = true) := by
        rintro ⟨hx, hy⟩
        rw [beq_iff_eq] at hx hy
        exact hxy (le_of_eq (hy.trans hx.symm))
      by_cases hx : (x.score == q) = true
      · have hy : ¬ (y.score == q) = true := fun h => hkey ⟨hx, h⟩
        simp [List.filter_cons, hx, hy, ih]
      · by_cases hy : (y.score == q) = true
        · simp [List.filter_cons, hx, hy, ih]
        · simp [List.filter_cons, hx, hy, ih]

theorem sortDesc_filter (q : ℚ) (l : List RecEntry) :
    (sortDesc l).filter (fun e => e.score == q)
      = l.filter (fun e => e.score == q) := by
  induction l with
  | nil => rfl
  | cons x xs ih =>
    rw [sortDesc, insertDesc_filter]
    simp only [List.filter_cons]
    rw [ih]

/-! Helper lemmas about the request-accumulation loop. -/

theorem buildRecs_length_map (m : Models) (userId : Int) :
    ∀ (pairs : List (Int × List String)) (recs : List RecEntry),
      buildRecs m userId pairs = some recs →
        recs.length = pairs.length ∧
          recs.map (fun e => e.movieId) = pairs.map Prod.fst := by
  intro pairs
  induction pairs with
  | nil =>
    intro recs h
    simp only [buildRecs, Option.some.injEq] at h
    subst h
    exact ⟨rfl, rfl⟩
  | cons p rest ih =>
    intro recs h
    obtain ⟨movieId, genres_list⟩ := p
    simp only [buildRecs, Option.bind_eq_bind, Option.bind_eq_some] at h
    obtain ⟨score, _, tail, htail, hrecs⟩ := h
    obtain ⟨h1, h2⟩ := ih tail htail
    simp only [Option.pure_def, Option.some.injEq] at hrecs
    subst hrecs
    constructor
    · simp [h1]
    · simp [h2]

theorem handleRequest_state (m : Models) (s : ServerState) (r : Request)
    (h : r ≠ Request.postShutdown) : (handleRequest m s r).1 = s := by
  cases r with
  | getHome => rfl
  | getRecommend => rfl
  | postRecommend j => rfl
  | postShutdown => exact absurd rfl h

theorem run_flask_stopped (m : Models) (s : ServerState)
    (h : s.server_active = false) (l : List Request) :
    run_flask m s l = [] := by
  cases l with
  | nil => rfl
  | cons r rs => simp [run_flask, h]

/-- C1: whenever both fitted models yield a prediction (both indexer lookups
succeed, so neither model transform raises), `hybrid_predict(user, movie,
genres)` returns exactly 0.7 times the collaborative model's score for
(user_index, movie_index) plus 0.3 times the content model's score for the
movie's feature vector. -/
theorem c1_hybrid_weighted_combination (m : Models)
    (userId movieId : Int) (genres_list : List String)
    (user_index movie_index : Nat)
    (hu : indexerTransform m.userLabels userId = some user_index)
    (hm : indexerTransform m.movieLabels movieId = some movie_index) :
    hybrid_predict m userId movieId genres_list
      = some ((7 : ℚ) / 10 * m.cfScore user_index movie_index
          + (3 : ℚ) / 10 * m.cbScore movie_index genres_list) := by
  simp [hybrid_predict, hybridParts, hu, hm]

/-- Witness for C1 at the concrete fitted state `cm`, user 1, movie 1. -/
theorem c1_hybrid_weighted_combination_witness :
    indexerTransform cm.userLabels 1 = some 0 ∧
    indexerTransform cm.movieLabels 1 = some 0 ∧
    hybrid_predict cm 1 1 []
      = some ((7 : ℚ) / 10 * cm.cfScore 0 0 + (3 : ℚ) / 10 * cm.cbScore 0 []) :=
  ⟨by decide, by decide,
    c1_hybrid_weighted_combination cm 1 1 [] 0 0 (by decide) (by decide)⟩

/-- C6: with the fitted models and encoding state held fixed (the global
environment), `hybrid_predict` is deterministic and side-effect free: the
call returns the environment unchanged, and a second call with identical
arguments (run on the environment the first call returned) yields the
identical score. -/
theorem c6_hybrid_predict_deterministic_pure (env : GlobalEnv)
    (userId movieId : Int) (genres_list : List String) :
    (hybridPredictCall env userId movieId genres_list).1 = env ∧
    (hybridPredictCall (hybridPredictCall env userId movieId genres_list).1
        userId movieId genres_list).2
      = (hybridPredictCall env userId movieId genres_list).2 :=
  ⟨rfl, rfl⟩

/-- C7: the content component is independent of the requesting user: two
`hybrid_predict` evaluations that differ only in userId but agree on movieId
and genres_list produce the same cb_score (second component of
`hybridParts`). -/
theorem c7_content_score_user_independent (m : Models)
    (userId1 userId2 movieId : Int) (genres_list : List String)
    (p1 p2 : ℚ × ℚ)
    (h1 : hybridParts m userId1 movieId genres_list = some p1)
    (h2 : hybridParts m userId2 movieId genres_list = some p2) :
    p1.2 = p2.2 := by
  cases hu1 : indexerTransform m.userLabels userId1 with
  | none => simp [hybridParts, hu1] at h1
  | some ui1 =>
    cases hu2 : indexerTransform m.userLabels userId2 with
    | none => simp [hybridParts, hu2] at h2
    | some ui2 =>
      cases hm : indexerTransform m.movieLabels movieId with
      | none => simp [hybridParts, hu1, hm] at h1
      | some mi =>
        simp only [hybridParts, hu1, hu2, hm, Option.bind_eq_bind,
          Option.some_bind, Option.pure_def, Option.some.injEq] at h1 h2
        subst h1
        subst h2
        rfl

/-- Witness for C7 at `cm` with the two distinct known users 1 and 2. -/
theorem c7_content_score_user_independent_witness :
    hybridParts cm 1 1 [] = some (10, 10) ∧
    hybridParts cm 2 1 [] = some (10, 10) ∧
    ((10 : ℚ), (10 : ℚ)).2 = ((10 : ℚ), (10 : ℚ)).2 :=
  ⟨rfl, rfl,
    c7_content_score_user_independent cm 1 2 1 [] (10, 10) (10, 10) rfl rfl⟩

/-- C9: a POST `/recommend` whose movieIds and genres_lists are both empty
succeeds with status 200 and the empty JSON array, for every fitted state
(the predictor is never invoked: the zip loop body never runs). -/
theorem c9_empty_request_empty_array (m : Models) (userId : Int) :
    recommendPost m ⟨some userId, some [], some []⟩ = Response.jsonList [] ∧
    Response.statusCode (recommendPost m ⟨some userId, some [], some []⟩)
      = 200 :=
  ⟨rfl, rfl⟩

/-- C10: the `/shutdown` handler is idempotent on the service state: every
call clears `server_active` and returns the fixed status body, and a second
call (from the state the first produced) returns exactly the same state and
response pair. -/
theorem c10_shutdown_idempotent (s : ServerState) :
    (shutdown s).1.server_active = false ∧
    (shutdown s).2 = Response.jsonStatus ("Server shutting down...") ∧
    shutdown (shutdown s).1 = shutdown s := by
  cases s
  exact ⟨rfl, rfl, rfl⟩

/-- C2: for every valid POST `/recommend` request (one on which every
per-item prediction succeeds), the returned list is the stable descending
sort of the computed recommendations: every pair of entries in order has
`score[i] >= score[j]` (pairwise, hence adjacent), and for each score value
the subsequence of entries carrying it equals the corresponding subsequence
of the input-order list, i.e. ties keep their original input order. -/
theorem c2_recommend_sorted_stable (m : Models) (userId : Int)
    (movieIds : List Int) (genres_lists : List (List String))
    (recommendations : List RecEntry) (q : ℚ)
    (h : buildRecs m userId (movieIds.zip genres_lists) = some recommendations) :
    recommendPost m ⟨some userId, some movieIds, some genres_lists⟩
        = Response.jsonList (sortDesc recommendations) ∧
    (sortDesc recommendations).Pairwise (fun a b => b.score ≤ a.score) ∧
    (sortDesc recommendations).filter (fun e => e.score == q)
        = recommendations.filter (fun e => e.score == q) := by
  refine ⟨?_, sortDesc_pairwise _, sortDesc_filter q _⟩
  simp [recommendPost, h]

/-- Witness for C2 at `cm` with two tied entries: the tie keeps input
order. -/
theorem c2_recommend_sorted_stable_witness :
    buildRecs cm 1 ([1, 2].zip [[], []]) = some [⟨1, w10⟩, ⟨2, w10⟩] ∧
    (recommendPost cm ⟨some 1, some [1, 2], some [[], []]⟩
        = Response.jsonList (sortDesc [⟨1, w10⟩, ⟨2, w10⟩]) ∧
      (sortDesc [⟨1, w10⟩, ⟨2, w10⟩]).Pairwise (fun a b => b.score ≤ a.score) ∧
      (sortDesc [⟨1, w10⟩, ⟨2, w10⟩]).filter (fun e => e.score == w10)
        = [RecEntry.mk 1 w10, RecEntry.mk 2 w10].filter
            (fun e => e.score == w10)) :=
  ⟨rfl, c2_recommend_sorted_stable cm 1 [1, 2] [[], []]
    [⟨1, w10⟩, ⟨2, w10⟩] w10 rfl⟩

/-- C3 counterexample: with the duplicated input `movieIds = [1, 1]` (equal
lengths, every prediction succeeding), the returned list has the right
length but carries movieId 1 twice, so it does not contain each input
movieId exactly once. -/
theorem c3_duplicate_input_counterexample :
    recommendPost cm ⟨some 1, some [1, 1], some [[], []]⟩
        = Response.jsonList [⟨1, w10⟩, ⟨1, w10⟩] ∧
    (1 : Int) ∈ [(1 : Int), 1] ∧
    List.count (1 : Int)
        (([(⟨1, w10⟩ : RecEntry), ⟨1, w10⟩]).map (fun e => e.movieId)) = 2 :=
  ⟨by norm_num [recommendPost, cm, w10, buildRecs, hybrid_predict,
      hybridParts, indexerTransform, sortDesc, insertDesc],
    by decide, by decide⟩

/-- C3 (amended): for every request with equal-length lists on which every
prediction succeeds — duplicate movieIds included — the returned list has
the same length as movieIds and its movieIds are a permutation of the input
movieIds (same multiset, no truncation); when additionally the input
movieIds are distinct, each of them appears exactly once. -/
theorem c3_recommend_length_permutation (m : Models) (userId : Int)
    (movieIds : List Int) (genres_lists : List (List String))
    (recommendations : List RecEntry)
    (hlen : movieIds.length = genres_lists.length)
    (h : buildRecs m userId (movieIds.zip genres_lists) = some recommendations) :
    recommendPost m ⟨some userId, some movieIds, some genres_lists⟩
        = Response.jsonList (sortDesc recommendations) ∧
    (sortDesc recommendations).length = movieIds.length ∧
    List.Perm ((sortDesc recommendations).map (fun e => e.movieId)) movieIds ∧
    (movieIds.Nodup → ∀ i ∈ movieIds,
      List.count i ((sortDesc recommendations).map (fun e => e.movieId)) = 1) := by
  obtain ⟨hlength, hmap⟩ := buildRecs_length_map m userId _ _ h
  have hfst : (movieIds.zip genres_lists).map Prod.fst = movieIds :=
    List.map_fst_zip movieIds genres_lists (le_of_eq hlen)
  have hperm : List.Perm ((sortDesc recommendations).map (fun e => e.movieId))
      movieIds := by
    have := (sortDesc_perm recommendations).map (fun e => e.movieId)
    rw [hmap, hfst] at this
    exact this
  refine ⟨by simp [recommendPost, h], ?_, hperm, ?_⟩
  · rw [(sortDesc_perm recommendations).length_eq, hlength,
      List.length_zip, hlen, min_self]
  · intro hnd i hi
    rw [hperm.count_eq]
    exact List.count_eq_one_of_mem hnd hi

/-- Witness for C3 (amended) at `cm` with movieIds [1, 2]. -/
theorem c3_recommend_length_permutation_witness :
    ([(1 : Int), 2].length = [([] : List String), []].length ∧
      buildRecs cm 1 ([1, 2].zip [[], []]) = some [⟨1, w10⟩, ⟨2, w10⟩]) ∧
    (recommendPost cm ⟨some 1, some [1, 2], some [[], []]⟩
        = Response.jsonList (sortDesc [⟨1, w10⟩, ⟨2, w10⟩]) ∧
      (sortDesc [⟨1, w10⟩, ⟨2, w10⟩]).length = [(1 : Int), 2].length ∧
      List.Perm ((sortDesc [⟨1, w10⟩, ⟨2, w10⟩]).map (fun e => e.movieId))
        [(1 : Int), 2] ∧
      ([(1 : Int), 2].Nodup → ∀ i ∈ [(1 : Int), 2],
        List.count i
          ((sortDesc [⟨1, w10⟩, ⟨2, w10⟩]).map (fun e => e.movieId)) = 1)) :=
  ⟨⟨rfl, rfl⟩,
    c3_recommend_length_permutation cm 1 [1, 2] [[], []]
      [⟨1, w10⟩, ⟨2, w10⟩] rfl rfl⟩

/-- C4 counterexample: querying the unseen user 3 makes the pipeline
transform raise (the indexer has no label for it), `hybrid_predict` produces
no score, and the request ends in the 500 server-error page — an unhandled
failure, not a default/fallback score. -/
theorem c4_cold_start_counterexample :
    hybrid_predict cm 3 1 [] = none ∧
    recommendPost cm ⟨some 3, some [1], some [[]]⟩ = Response.serverError ∧
    Response.statusCode (recommendPost cm ⟨some 3, some [1], some [[]]⟩)
      = 500 :=
  ⟨rfl, rfl, rfl⟩

/-- C4 (amended): a prediction-time query naming a user or movie unseen
during fitting makes `hybrid_predict` raise (no score is produced: the
fitted indexer rejects the unseen id, and the dropped collaborative row
leaves nothing to collect), so a `/recommend` request containing it fails
with the 500 server-error response instead of degrading to a fallback
score. -/
theorem c4_cold_start_fails_request (m : Models) (userId movieId : Int)
    (genres_list : List String)
    (h : indexerTransform m.userLabels userId = none ∨
         indexerTransform m.movieLabels movieId = none) :
    hybrid_predict m userId movieId genres_list = none ∧
    recommendPost m ⟨some userId, some [movieId], some [genres_list]⟩
        = Response.serverError := by
  have hpred : hybrid_predict m userId movieId genres_list = none := by
    rcases h with h | h
    · simp [hybrid_predict, hybridParts, h]
    · cases hu : indexerTransform m.userLabels userId with
      | none => simp [hybrid_predict, hybridParts, hu]
      | some ui => simp [hybrid_predict, hybridParts, hu, h]
  have hz : [movieId].zip [genres_list] = [(movieId, genres_list)] := rfl
  refine ⟨hpred, ?_⟩
  simp [recommendPost, hz, buildRecs, hpred]

/-- Witness for C4 (amended) at `cm` with the unseen user 3. -/
theorem c4_cold_start_fails_request_witness :
    (indexerTransform cm.userLabels 3 = none ∨
      indexerTransform cm.movieLabels 1 = none) ∧
    (hybrid_predict cm 3 1 [] = none ∧
      recommendPost cm ⟨some 3, some [1], some [[]]⟩
        = Response.serverError) :=
  ⟨Or.inl (by decide),
    c4_cold_start_fails_request cm 3 1 [] (Or.inl (by decide))⟩

/-- C5 counterexample: the mismatched-length request with movieIds [1, 2]
but a single genres list is silently truncated by `zip` to one scored entry
and succeeds with 200 — not a client error, and the shorter list wins; a
request missing the userId field instead dies with the 500 server-error
page, also not a client error. -/
theorem c5_malformed_counterexample :
    recommendPost cm ⟨some 1, some [1, 2], some [[]]⟩
        = Response.jsonList [⟨1, w10⟩] ∧
    Response.statusCode (recommendPost cm ⟨some 1, some [1, 2], some [[]]⟩)
      = 200 ∧
    recommendPost cm ⟨none, some [1, 2], some [[]]⟩ = Response.serverError ∧
    Response.statusCode (recommendPost cm ⟨none, some [1, 2], some [[]]⟩)
      = 500 :=
  ⟨rfl, rfl, rfl, rfl⟩

/-- C5 (amended): a request with a missing required field yields the 500
server-error response (an uncaught KeyError), not a client error; a
mismatched-length request is silently truncated by `zip` to
min(len(movieIds), len(genres_lists)) scored entries and returns 200; in
both cases the serving loop carries on with the remaining requests, so the
failure is not fatal to the service. -/
theorem c5_malformed_truncates_or_500 (m : Models) (userId : Int)
    (movieIds : List Int) (genres_lists : List (List String))
    (recommendations : List RecEntry) (rest : List Request)
    (h : buildRecs m userId (movieIds.zip genres_lists)
      = some recommendations) :
    recommendPost m ⟨some userId, some movieIds, some genres_lists⟩
        = Response.jsonList (sortDesc recommendations) ∧
    (sortDesc recommendations).length
        = min movieIds.length genres_lists.length ∧
    Response.statusCode
        (recommendPost m ⟨some userId, some movieIds, some genres_lists⟩)
      = 200 ∧
    recommendPost m ⟨none, some movieIds, some genres_lists⟩
        = Response.serverError ∧
    run_flask m ⟨true⟩
        (Request.postRecommend ⟨some userId, some movieIds, some genres_lists⟩
          :: rest)
      = recommendPost m ⟨some userId, some movieIds, some genres_lists⟩
          :: run_flask m ⟨true⟩ rest ∧
    run_flask m ⟨true⟩
        (Request.postRecommend ⟨none, some movieIds, some genres_lists⟩ :: rest)
      = Response.serverError :: run_flask m ⟨true⟩ rest := by
  obtain ⟨hlength, _⟩ := buildRecs_length_map m userId _ _ h
  refine ⟨by simp [recommendPost, h], ?_,
    by simp [recommendPost, h, Response.statusCode],
    by rfl,
    by simp [run_flask, handleRequest],
    by simp only [run_flask, handleRequest]; rfl⟩
  rw [(sortDesc_perm recommendations).length_eq, hlength, List.length_zip]

/-- Witness for C5 (amended) at `cm` with movieIds [1, 2] against a single
genres list. -/
theorem c5_malformed_truncates_or_500_witness :
    buildRecs cm 1 ([1, 2].zip [[]]) = some [⟨1, w10⟩] ∧
    (recommendPost cm ⟨some 1, some [1, 2], some [[]]⟩
        = Response.jsonList (sortDesc [⟨1, w10⟩]) ∧
      (sortDesc [⟨1, w10⟩]).length
        = min [(1 : Int), 2].length [([] : List String)].length ∧
      Response.statusCode (recommendPost cm ⟨some 1, some [1, 2], some [[]]⟩)
        = 200 ∧
      recommendPost cm ⟨none, some [1, 2], some [[]]⟩
        = Response.serverError ∧
      run_flask cm ⟨true⟩
          (Request.postRecommend ⟨some 1, some [1, 2], some [[]]⟩
            :: [Request.getHome])
        = recommendPost cm ⟨some 1, some [1, 2], some [[]]⟩
            :: run_flask cm ⟨true⟩ [Request.getHome] ∧
      run_flask cm ⟨true⟩
          (Request.postRecommend ⟨none, some [1, 2], some [[]]⟩
            :: [Request.getHome])
        = Response.serverError :: run_flask cm ⟨true⟩ [Request.getHome]) :=
  ⟨rfl, c5_malformed_truncates_or_500 cm 1 [1, 2] [[]] [⟨1, w10⟩]
    [Request.getHome] rfl⟩

/-- Draining lemma for C8: starting active, the loop answers every request
ahead of the shutdown request, answers the shutdown request itself (the
in-flight request completes), and accepts nothing afterwards. -/
theorem run_flask_drain (m : Models) (post : List Request) :
    ∀ pre : List Request, Request.postShutdown ∉ pre →
      run_flask m ⟨true⟩ (pre ++ Request.postShutdown :: post)
        = pre.map (fun r => (handleRequest m ⟨true⟩ r).2)
          ++ [Response.jsonStatus ("Server shutting down...")] := by
  intro pre
  induction pre with
  | nil =>
    intro _
    simp [run_flask, handleRequest, shutdown,
      run_flask_stopped m ⟨false⟩ rfl post]
  | cons r rs ih =>
    intro hpre
    have hr : r ≠ Request.postShutdown := by
      intro hr
      exact hpre (by rw [hr]; exact List.mem_cons_self _ _)
    have hrs : Request.postShutdown ∉ rs :=
      fun hm => hpre (List.mem_cons_of_mem _ hm)
    have hstep : run_flask m ⟨true⟩
        (r :: (rs ++ Request.postShutdown :: post))
        = (handleRequest m ⟨true⟩ r).2
          :: run_flask m (handleRequest m ⟨true⟩ r).1
              (rs ++ Request.postShutdown :: post) := by
      simp [run_flask]
    simp only [List.cons_append, List.map_cons]
    rw [hstep, handleRequest_state m ⟨true⟩ r hr, ih hrs]

/-- C8: POST `/shutdown` returns the JSON status body with code 200 and
moves the state from ACTIVE to STOPPED (`server_active` cleared); the loop
reads the flag only between requests, so every request before the shutdown
and the shutdown request itself are answered (graceful drain), and no
request arriving after it is accepted. -/
theorem c8_shutdown_graceful_drain (m : Models) (s : ServerState)
    (pre post : List Request) (hpre : Request.postShutdown ∉ pre) :
    (shutdown s).2 = Response.jsonStatus ("Server shutting down...") ∧
    Response.statusCode (shutdown s).2 = 200 ∧
    (shutdown s).1.server_active = false ∧
    run_flask m ⟨true⟩ (pre ++ Request.postShutdown :: post)
      = pre.map (fun r => (handleRequest m ⟨true⟩ r).2)
        ++ [Response.jsonStatus ("Server shutting down...")] :=
  ⟨rfl, rfl, rfl, run_flask_drain m post pre hpre⟩

/-- Witness for C8: one ordinary request before the shutdown, one after. -/
theorem c8_shutdown_graceful_drain_witness :
    Request.postShutdown ∉ [Request.getHome] ∧
    ((shutdown ⟨true⟩).2 = Response.jsonStatus ("Server shutting down...") ∧
      Response.statusCode (shutdown ⟨true⟩).2 = 200 ∧
      (shutdown ⟨true⟩).1.server_active = false ∧
      run_flask cm ⟨true⟩
          ([Request.getHome] ++ Request.postShutdown :: [Request.getRecommend])
        = [Request.getHome].map (fun r => (handleRequest cm ⟨true⟩ r).2)
          ++ [Response.jsonStatus ("Server shutting down...")]) :=
  ⟨by decide, c8_shutdown_graceful_drain cm ⟨true⟩ [Request.getHome]
    [Request.getRecommend] (by decide)⟩

